import Mathlib

/-!
Verification of the task execution and cluster-dispatch subsystem of
`CGATPipelines/Pipeline.py`.

The Python code is shallowly embedded: Python dictionaries become
association lists (`Dict`), the scalar values that flow through the
configuration system become the inductive `Val`, raised exceptions become
`Except PyErr`, and the side effects of `run()` (job submission, local
process spawning, file cleanup) become an explicit `Effect` trace.
Python 2 strings are ASCII byte strings in this code base, so they are
modelled by Lean `String` with per-character operations on `String.data`.
-/

/-- A Python scalar value as it appears in the parameter dictionaries:
strings, ints, booleans, `None`, the `job_array` triple and the
`statements` list. -/
inductive Val
  | vs (x : String)
  | vi (n : Int)
  | vb (b : Bool)
  | vnone
  | vtriple (a b c : Int)
  | vlist (xs : List String)
  deriving Repr, DecidableEq

/-- Python truthiness of a `Val` (`bool(v)`). -/
def Val.truthy : Val → Bool
  | .vs x => x ≠ ""
  | .vi n => n ≠ 0
  | .vb b => b
  | .vnone => false
  | .vtriple _ _ _ => true
  | .vlist xs => xs ≠ []

/-- `str(v)` for the values above (only the cases this code exercises). -/
def Val.toStr : Val → String
  | .vs x => x
  | .vi n => toString n
  | .vb b => if b then "True" else "False"
  | .vnone => "None"
  | .vtriple a b c => "(" ++ toString a ++ ", " ++ toString b ++ ", " ++ toString c ++ ")"
  | .vlist xs => String.intercalate ", " xs

/-- The Python exceptions raised by the embedded code. -/
inductive PyErr
  | keyError (m : String)
  | valueError (m : String)
  | typeError (m : String)
  | indexError (m : String)
  | assertionError (m : String)
  | pipelineError (m : String)
  | drmaaError (m : String)
  deriving Repr, DecidableEq

/-- A Python dictionary with string keys, as an association list.
Dictionaries built through `dset` have no duplicate keys. -/
abbrev Dict := List (String × Val)

/-- `d[k]` as an optional lookup (first binding wins). -/
def dfind : Dict → String → Option Val
  | [], _ => none
  | (k', v) :: rest, k => if k' = k then some v else dfind rest k

/-- `k in d`. -/
def dmem (d : Dict) (k : String) : Bool := (dfind d k).isSome

/-- `d[k] = v`: replace the binding in place if the key exists, else append. -/
def dset : Dict → String → Val → Dict
  | [], k, v => [(k, v)]
  | (k', v') :: rest, k, v =>
    if k' = k then (k, v) :: rest else (k', v') :: dset rest k v

/-- `d.keys()`. -/
def dkeys (d : Dict) : List String := d.map (·.1)

/-- `dict(a.items() + b.items())` / `a.update(b)`: merge two association
lists, later bindings winning, producing a duplicate-free dictionary. -/
def dmerge (a b : Dict) : Dict :=
  (a ++ b).foldl (fun d kv => dset d kv.1 kv.2) []

/-- `d.get(k, default)`. -/
def dget (d : Dict) (k : String) (dflt : Val) : Val := (dfind d k).getD dflt

/-! ## String helpers (character-level, ASCII byte strings) -/

/-- Boolean list-prefix test (used for literal substring matching). -/
def liPrefix : List Char → List Char → Bool
  | [], _ => true
  | _ :: _, [] => false
  | a :: as, b :: bs => a = b && liPrefix as bs

/-- Python `needle in haystack` substring test. -/
def subStrAux (pat : List Char) : List Char → Bool
  | [] => liPrefix pat []
  | c :: rest => liPrefix pat (c :: rest) || subStrAux pat rest

/-- Python `needle in haystack` on strings. -/
def substrContains (haystack needle : String) : Bool :=
  subStrAux needle.data haystack.data

/-- Python `s.startswith(p)`. -/
def strStarts (s p : String) : Bool := liPrefix p.data s.data

/-- Python slicing `s[n:]` (by characters; the code base is ASCII). -/
def strDrop (s : String) (n : Nat) : String := String.mk (s.data.drop n)

/-- Python `\s` whitespace class (ASCII part). -/
def isSpacePy (c : Char) : Bool :=
  c = ' ' || c = '\t' || c = '\n' || c = '\x0d' || c = '\x0b' || c = '\x0c'

/-- Python `s.strip()`: drop leading and trailing whitespace. -/
def pyStrip (s : String) : String :=
  String.mk (((s.data.dropWhile isSpacePy).reverse.dropWhile isSpacePy).reverse)

/-- Python `sep.join(parts)`. -/
def strJoin (sep : String) : List String → String
  | [] => ""
  | [x] => x
  | x :: y :: rest => x ++ sep ++ strJoin sep (y :: rest)

/-- Python `s.endswith(t)` for a one-character suffix. -/
def strEndsOne (s : String) (c : Char) : Bool :=
  match s.data.reverse with
  | [] => false
  | c' :: _ => c' = c

/-- Drop the final character of a string (`s[:-1]`). -/
def strDropLastOne (s : String) : String := String.mk (s.data.reverse.drop 1).reverse

/-- Fuel-driven leftmost non-overlapping literal replacement, the model of
`re.sub(pat, rep, s)` for the literal patterns used by this code
(`@IN@`, `@OUT@`); the fuel is the input length, and every step consumes
at least one input character, so the fuel never runs out for the
non-empty patterns in use. -/
def replFuel (pat rep : List Char) : Nat → List Char → List Char
  | 0, l => l
  | _ + 1, [] => []
  | n + 1, c :: rest =>
    if liPrefix pat (c :: rest) then rep ++ replFuel pat rep n ((c :: rest).drop pat.length)
    else c :: replFuel pat rep n rest

/-- `re.sub(pat, rep, s)` for a literal pattern. -/
def replaceAll (pat rep s : String) : String :=
  String.mk (replFuel pat.data rep.data s.data.length s.data)

/-! ## `substituteParameters` (Pipeline.py lines 609-660) -/

/-- One iteration of the key loop in `substituteParameters`: for a key `k`
of the merged dictionary, if `k` starts with the outfile value, the
remainder after the outfile prefix plus one separator character must name
an existing parameter, whose value is then overridden. -/
def subStep (outfile : String) (acc : Except PyErr Dict) (k : String) : Except PyErr Dict :=
  match acc with
  | .error e => .error e
  | .ok d =>
    if strStarts k outfile then
      let p := strDrop k (outfile.length + 1)
      if dmem d p then
        match dfind d k with
        | some vk => .ok (dset d p vk)
        | none => .error (.keyError k)
      else
        .error (.keyError ("task specific parameter '" ++ p ++ "' does not exist for '" ++ k ++ "' "))
    else .ok d

/-- `substituteParameters(**kwargs)` with the global `PARAMS` made explicit:
merge `PARAMS` with `kwargs` (the latter winning) and, when the merged
dictionary holds an `outfile`, apply the task-specific override loop over
a snapshot of the keys. -/
def substituteParameters (params kwargs : Dict) : Except PyErr Dict :=
  let lp := dmerge params kwargs
  match dfind lp "outfile" with
  | none => .ok lp
  | some (.vs outfile) => (dkeys lp).foldl (subStep outfile) (.ok lp)
  | some _ => .error (.typeError "startswith first arg must be str")

/-! ## Python `%`-interpolation and `buildStatement` (lines 1524-1571) -/

/-- Read a `%(`-mapping key up to the matching `)` (CPython counts nested
parentheses); returns the key and the rest, or `none` when the key is
never closed. -/
def readKeyAux : Nat → List Char → List Char → Option (List Char × List Char)
  | _, _, [] => none
  | 0, acc, ')' :: rest => some (acc.reverse, rest)
  | depth + 1, acc, ')' :: rest => readKeyAux depth (')' :: acc) rest
  | depth, acc, '(' :: rest => readKeyAux (depth + 1) ('(' :: acc) rest
  | depth, acc, c :: rest => readKeyAux depth (c :: acc) rest

/-- The `%` string-formatting operator with a mapping right operand, for
the format constructs this code base uses: `%%` and `%(key)conv` with
`conv` one of `s`, `i`, `d`, `f`.  A key missing from the mapping raises
`KeyError(key)`; a `%` at the end of the format, or an unclosed key,
raises `ValueError("incomplete format")` /
`ValueError("incomplete format key")`; an unknown conversion character
raises `ValueError("unsupported format character ...")`, exactly the
CPython error classes.  (Width/precision flags and keyless conversions,
which consume positional arguments, do not occur in the repository's
templates and are not modelled.)  The fuel is the format length: every
step consumes at least one character, so the exhaustion branch is
unreachable when starting with fuel equal to the input length. -/
def interpGo (d : Dict) : Nat → List Char → Except PyErr (List Char)
  | _, [] => .ok []
  | 0, _ :: _ => .error (.valueError "format fuel exhausted")
  | fuel + 1, '%' :: rest =>
    match rest with
    | [] => .error (.valueError "incomplete format")
    | '%' :: rest2 => (fun t => '%' :: t) <$> interpGo d fuel rest2
    | '(' :: rest2 =>
      match readKeyAux 0 [] rest2 with
      | none => .error (.valueError "incomplete format key")
      | some (key, rest3) =>
        match rest3 with
        | [] => .error (.valueError "incomplete format")
        | conv :: rest4 =>
          let k := String.mk key
          if conv = 's' then
            match dfind d k with
            | none => .error (.keyError k)
            | some v => (fun t => (Val.toStr v).data ++ t) <$> interpGo d fuel rest4
          else if conv = 'i' || conv = 'd' then
            match dfind d k with
            | none => .error (.keyError k)
            | some (.vi n) => (fun t => (toString n).data ++ t) <$> interpGo d fuel rest4
            | some _ => .error (.typeError "%d format: a number is required")
          else if conv = 'f' then
            match dfind d k with
            | none => .error (.keyError k)
            | some (.vi n) =>
              (fun t => (toString n).data ++ ['.', '0'] ++ t) <$> interpGo d fuel rest4
            | some _ => .error (.typeError "float argument required")
          else
            .error (.valueError ("unsupported format character '" ++ String.mk [conv] ++ "'"))
    | c :: _ =>
      .error (.valueError ("unsupported format character '" ++ String.mk [c] ++ "'"))
  | fuel + 1, c :: rest => (fun t => c :: t) <$> interpGo d fuel rest

/-- `template % d` on strings. -/
def interpolate (template : String) (d : Dict) : Except PyErr String :=
  (fun l => String.mk l) <$> interpGo d template.data.length template.data

/-- Replace every tab run by a single space (`re.sub("\t+", " ", s)`). -/
def collapseTabsGo : Bool → List Char → List Char
  | _, [] => []
  | prevTab, c :: rest =>
    if c = '\t' then
      if prevTab then collapseTabsGo true rest else ' ' :: collapseTabsGo true rest
    else c :: collapseTabsGo false rest

/-- Statement cleanup in `buildStatement`: collapse tab runs, join the
lines with single spaces (`" ".join(s.split("\n"))`), strip, and drop one
trailing `;`. -/
def cleanupStatement (s : String) : String :=
  let s1 := String.mk (collapseTabsGo false s.data)
  let s2 := String.mk (s1.data.map (fun c => if c = '\n' then ' ' else c))
  let s3 := pyStrip s2
  if strEndsOne s3 ';' then strDropLastOne s3 else s3

/-- `buildStatement(**kwargs)` with `PARAMS` explicit: require a
`statement` key in `kwargs`, run `substituteParameters`, interpolate the
template against the result (re-raising a `KeyError` with the
"could not find ... in dictionaries" message and a `ValueError` with the
"Error when creating command ..." message), then clean up whitespace. -/
def buildStatement (params kwargs : Dict) : Except PyErr String :=
  if ¬ dmem kwargs "statement" then .error (.valueError "'statement' not defined")
  else
    match substituteParameters params kwargs with
    | .error e => .error e
    | .ok lp =>
      match dfind kwargs "statement" with
      | some (.vs template) =>
        match interpolate template lp with
        | .ok s => .ok (cleanupStatement s)
        | .error (.keyError k) =>
          .error (.keyError ("Error when creating command: could not find '" ++ k ++
            "' in dictionaries"))
        | .error (.valueError m) =>
          .error (.valueError ("Error when creating command: " ++ m ++ ", statement = " ++
            template))
        | .error e => .error e
      | some _ => .error (.typeError "format requires a mapping")
      | none => .error (.keyError "statement")

instance exceptDecEq {ε α : Type} [DecidableEq ε] [DecidableEq α] : DecidableEq (Except ε α) :=
  fun x y =>
  match x, y with
  | .ok a, .ok b =>
    if h : a = b then isTrue (by rw [h]) else isFalse (by intro hh; cases hh; exact h rfl)
  | .error a, .error b =>
    if h : a = b then isTrue (by rw [h]) else isFalse (by intro hh; cases hh; exact h rfl)
  | .ok _, .error _ => isFalse (by intro hh; cases hh)
  | .error _, .ok _ => isFalse (by intro hh; cases hh)

/-! ## `expandStatement` and `joinStatements` (lines 1574-1646) -/

/-- The fixed shell preamble `_exec_prefix` installing
`detect_pipe_error` and `checkpoint`. -/
def execPrefix : String :=
  "detect_pipe_error_helper()\n    \x7b\n    while [ \"$#\" != 0 ] ; do\n        # there was an error in at least one program of the pipe\n        if [ \"$1\" != 0 ] ; then return 1 ; fi\n        shift 1\n    done\n    return 0\n    \x7d\n    detect_pipe_error() \x7b\n    detect_pipe_error_helper \"$\x7bPIPESTATUS[@]\x7d\"\n    return $?\n    \x7d\n    checkpoint() \x7b\n        detect_pipe_error;\n        if [ $? != 0 ]; then exit 1; fi;\n    \x7d\n    "

/-- The fixed shell postamble `_exec_suffix`. -/
def execSuffix : String := "; detect_pipe_error"

/-- `expandStatement(statement, ignore_pipe_errors)`: unless suppressed,
wrap the statement in the pipe-error-detecting preamble/postamble. -/
def expandStatement (statement : String) (ignorePipeErrors : Bool) : String :=
  if ignorePipeErrors then statement
  else execPrefix ++ " " ++ statement ++ " " ++ execSuffix

/-- The chaining loop of `joinStatements`: statement `x` has `@IN@`
replaced by the infile (when `x = 0`) or by temporary `x`, and `@OUT@`
replaced by temporary `x + 1`; the result is stripped and loses one
trailing `;`. -/
def joinGo (infile : String) (pattern : Nat → String) : Nat → List String → List String
  | _, [] => []
  | x, st :: rest =>
    let s := if x = 0 then replaceAll "@IN@" infile st else replaceAll "@IN@" (pattern x) st
    let s2 := pyStrip (replaceAll "@OUT@" (pattern (x + 1)) s)
    let s3 := if strEndsOne s2 ';' then strDropLastOne s2 else s2
    s3 :: joinGo infile pattern (x + 1) rest

/-- `joinStatements(statements, infile)` with the generated temporary
prefix (`getTempFilename()`) made an explicit argument: chain the
statements through `prefix_i` temporaries, append the cleanup
`rm -f prefix*`, and join everything with `; checkpoint ; `.  The
source's `assert prefix != ""` becomes the `AssertionError` branch. -/
def joinStatements (statements : List String) (infile : String) (tmpPrefix : String) :
    Except PyErr String :=
  if tmpPrefix = "" then .error (.assertionError "prefix is empty")
  else
    let pattern := fun (i : Nat) => tmpPrefix ++ "_" ++ toString i
    let result := joinGo infile pattern 0 statements ++ ["rm -f " ++ tmpPrefix ++ "*"]
    .ok (strJoin "; checkpoint ; " result)

/-! ## Job memory resolution in `run` (lines 1786-1809) -/

/-- Try to match `-l\s*mem_free\s*=\s*(\S+)` at the head of the list,
returning the `\S+` capture. -/
def matchMemFreeAt : List Char → Option (List Char)
  | '-' :: 'l' :: rest =>
    let r1 := rest.dropWhile isSpacePy
    if liPrefix "mem_free".data r1 then
      match (r1.drop 8).dropWhile isSpacePy with
      | '=' :: r3 =>
        let r4 := r3.dropWhile isSpacePy
        match r4.takeWhile (fun c => ¬ isSpacePy c) with
        | [] => none
        | cap => some cap
      | _ => none
    else none
  | _ => none

/-- `re.search("-l\s*mem_free\s*=\s*(\S+)", o)`: scan all start
positions, leftmost match wins. -/
def searchMemFree : List Char → Option String
  | [] => none
  | c :: rest =>
    match matchMemFreeAt (c :: rest) with
    | some cap => some (String.mk cap)
    | none => searchMemFree rest

/-- The `job_memory` resolution at the top of `run()`: an explicit
`job_memory` in the merged options wins; otherwise, when the
`cluster_options` string contains `mem_free` and the global
`cluster_memory_resource` parameter is truthy, the amount is parsed out
of the legacy `-l mem_free=...` pattern (raising `ValueError` when the
pattern cannot be parsed); otherwise the global `cluster_memory_default`
(or `"2G"`) is used.  The source also strips the matched legacy spec from
`cluster_options`; no modelled observable depends on the stripped string,
so only the resolved memory is returned. -/
def resolveJobMemory (options params : Dict) : Except PyErr Val :=
  if dmem options "job_memory" then .ok (dget options "job_memory" .vnone)
  else
    match dfind options "cluster_options" with
    | some (.vs co) =>
      if substrContains co "mem_free" && (dget params "cluster_memory_resource" (.vb false)).truthy
      then
        match searchMemFree co.data with
        | none => .error (.valueError ("expecting mem_free in '" ++ co ++ "'"))
        | some amt => .ok (.vs amt)
      else .ok (dget params "cluster_memory_default" (.vs "2G"))
    | some _ => .error (.typeError "argument of type is not iterable")
    | none => .error (.keyError "cluster_options")

/-! ## The `run()` dispatch model (lines 1729-2066) -/

/-- Observable side effects of one `run()` call, in program order:
successful statement construction, job-template bookkeeping, job-script
creation, cluster submission (single or bulk), synchronization, per-job
wait/collect/cleanup, and local subprocess spawning. -/
inductive Effect
  | builtStatement (s : String)
  | createdJobTemplate
  | builtJobScript (idx : Nat)
  | submittedJob (idx : Nat)
  | submittedBulk (first last incr : Int)
  | synchronized
  | waited (idx : Nat)
  | readOutputs (idx : Nat)
  | unlinkedScript (idx : Nat)
  | deletedJobTemplate
  | spawnedLocal (s : String)
  deriving Repr, DecidableEq

/-- `true` exactly for the statement-construction effect. -/
def Effect.isBuilt : Effect → Bool
  | .builtStatement _ => true
  | _ => false

/-- Outcome of `session.wait` for one cluster job: normal completion with
an exit status, or a drmaa exception carrying a message (the `code 24`
accounting-loss message is special-cased by the source). -/
inductive WaitOutcome
  | finished (exitStatus : Int)
  | waitExn (msg : String)

/-- The environment of one `run()` call: the global `PARAMS`, the calling
frame's locals, the explicit keyword arguments, whether `GLOBAL_SESSION`
is live, and oracles for the outcome of each cluster job / local process
(indexed by submission order). -/
structure RunConfig where
  params : Dict
  callerLocals : Dict
  kwargs : Dict
  sessionLive : Bool
  jobOutcome : Nat → WaitOutcome
  jobStderr : Nat → String
  localExit : Nat → Int
  localStderr : Nat → String
  shellEnv : String

/-- Option merging and legacy synonyms (lines 1774-1784).  Note that
`options.get('job_options', options['cluster_options'])` evaluates its
default eagerly, so a missing `cluster_options` (resp. `cluster_queue`)
key raises `KeyError` even when the synonym is present. -/
def setupOptions (c : RunConfig) : Except PyErr Dict :=
  let o := dmerge (dmerge c.params c.callerLocals) c.kwargs
  match dfind o "cluster_options" with
  | none => .error (.keyError "cluster_options")
  | some co =>
    let o := dset o "cluster_options" ((dfind o "job_options").getD co)
    match dfind o "cluster_queue" with
    | none => .error (.keyError "cluster_queue")
    | some cq =>
      let o := dset o "cluster_queue" ((dfind o "job_queue").getD cq)
      .ok (dset o "without_cluster" ((dfind o "without_cluster").getD .vnone))

/-- `os.path.basename`. -/
def strBasename (s : String) : String :=
  String.mk ((s.data.reverse.takeWhile (fun c => ¬ c = '/')).reverse)

/-- The SGE-compatible job name (lines 1863-1866): basename of the
outfile (default `"ruffus"`) with colons replaced by underscores. -/
def jobNameOf (o : Dict) : Except PyErr String :=
  match dget o "outfile" (.vs "ruffus") with
  | .vs s => .ok (String.mk ((strBasename s).data.map (fun c => if c = ':' then '_' else c)))
  | _ => .error (.typeError "basename requires a string")

/-- `setupJob` (lines 1811-1840): prefix a non-letter-initial job name
with `_` (an empty name raises `IndexError`), require the global
`cluster_memory_resource`, assemble the native-specification template and
interpolate it against the options (so a missing `cluster_queue`,
`cluster_priority`, `cluster_options`, or - with `job_threads` set -
`cluster_parallel_environment` key raises, and a non-integer
`cluster_priority` fails the `%i` conversion).  Success stands for a
created job template. -/
def setupJobModel (options params : Dict) (jobMemory : Val) (jobName : String) :
    Except PyErr Unit :=
  match jobName.data with
  | [] => .error (.indexError "string index out of range")
  | ch :: _ =>
    let jn := if ch.isAlpha then jobName else "_" ++ jobName
    match dfind params "cluster_memory_resource" with
    | none => .error (.keyError "cluster_memory_resource")
    | some res =>
      let spec := "-V -q %(cluster_queue)s -p %(cluster_priority)i -N " ++ jn ++
        " %(cluster_options)s -l " ++ res.toStr ++ "=" ++ jobMemory.toStr ++
        (if dmem options "job_threads" then
          " -pe %(cluster_parallel_environment)s %(job_threads)i -R y" else "")
      match interpolate spec options with
      | .ok _ => .ok ()
      | .error e => .error e

/-- The statement-building loop shared by the batch and local paths
(lines 1921-1924 and 2019-2022): set `options["statement"]` to each raw
statement in turn and call `buildStatement`, collecting the built
statements and the finally mutated options; the first failure aborts. -/
def buildLoop (params : Dict) (o : Dict) :
    List String → List Effect × Except PyErr (Dict × List String)
  | [] => ([], .ok (o, []))
  | st :: rest =>
    let o2 := dset o "statement" (.vs st)
    match buildStatement params o2 with
    | .error e => ([], .error e)
    | .ok s =>
      match buildLoop params o2 rest with
      | (es, .error e) => (Effect.builtStatement s :: es, .error e)
      | (es, .ok (oF, ss)) => (Effect.builtStatement s :: es, .ok (oF, s :: ss))

/-- Submission of a batch (lines 1932-1949): one job script and one
`runJob` per statement. -/
def submitLoop : Nat → List String → List Effect
  | _, [] => []
  | idx, _ :: rest => .builtJobScript idx :: .submittedJob idx :: submitLoop (idx + 1) rest

/-- `_collectSingleJobFromCluster` (lines 1693-1727): wait for the job
(re-raising any drmaa error whose message does not start with `code 24`,
and treating `code 24` as a missing return value), read and remove the
stdout/stderr files, raise `PipelineError` on a nonzero exit status
unless errors are ignored, and only then unlink the job script. -/
def collectSingle (idx : Nat) (outcome : WaitOutcome) (stderrTxt : String)
    (statement : String) (ignoreErrors : Bool) : List Effect × Option PyErr :=
  match outcome with
  | .waitExn msg =>
    if strStarts msg "code 24" then
      ([.waited idx, .readOutputs idx, .unlinkedScript idx], none)
    else
      ([.waited idx], some (.drmaaError msg))
  | .finished e =>
    if e ≠ 0 && !ignoreErrors then
      ([.waited idx, .readOutputs idx],
       some (.pipelineError ("---------------------------------------\n" ++
         "Child was terminated by signal " ++ toString e ++ ": \n" ++
         "The stderr was: \n" ++ stderrTxt ++ "\n" ++ statement ++ "\n" ++
         "-----------------------------------------")))
    else
      ([.waited idx, .readOutputs idx, .unlinkedScript idx], none)

/-- The batch collection loop (lines 1955-1964): collect each job in
submission order; the first raised error aborts the loop. -/
def collectLoop (c : RunConfig) (ignoreErrors : Bool) :
    Nat → List String → List Effect × Option PyErr
  | _, [] => ([], none)
  | idx, st :: rest =>
    match collectSingle idx (c.jobOutcome idx) (c.jobStderr idx) st ignoreErrors with
    | (es, some e) => (es, some e)
    | (es, none) =>
      match collectLoop c ignoreErrors (idx + 1) rest with
      | (es2, r) => (es ++ es2, r)

/-- The safe-character set of Python 2 `pipes.quote`. -/
def pipesQuoteSafe (c : Char) : Bool :=
  c.isAlpha || c.isDigit || c = '@' || c = '%' || c = '_' || c = '-' || c = '+' ||
  c = '=' || c = ':' || c = ',' || c = '.' || c = '/'

/-- Python 2 `pipes.quote`. -/
def pipesQuote (s : String) : String :=
  if s = "" then "''"
  else if s.data.all pipesQuoteSafe then s
  else "'" ++ String.mk (s.data.foldr
    (fun c acc => if c = '\'' then '\'' :: '"' :: '\'' :: '"' :: '\'' :: acc else c :: acc)
    []) ++ "'"

/-- The local execution loop (lines 2029-2066): statements containing
process substitution `<(` are rewrapped through an explicit bash
invocation (raising `ValueError` when `$SHELL` is not a bash), each
statement is expanded and run in a subprocess, and a nonzero return code
raises `PipelineError` (with the negated return code, as in the source)
unless errors are ignored; the first failure aborts the loop. -/
def localLoop (c : RunConfig) (ipe ignoreErrors : Bool) :
    Nat → List String → List Effect × Option PyErr
  | _, [] => ([], none)
  | idx, st :: rest =>
    let wrapped : Except PyErr String :=
      if substrContains st "<(" then
        if ¬ substrContains c.shellEnv "bash" then
          .error (.valueError "require bash for advanced shell syntax: <()")
        else .ok (c.shellEnv ++ " -c " ++ pipesQuote st)
      else .ok st
    match wrapped with
    | .error e => ([], some e)
    | .ok st2 =>
      let spawn := Effect.spawnedLocal (expandStatement st2 ipe)
      if c.localExit idx ≠ 0 && !ignoreErrors then
        ([spawn], some (.pipelineError ("---------------------------------------\n" ++
          "Child was terminated by signal " ++ toString (- c.localExit idx) ++ ": \n" ++
          "The stderr was: \n" ++ c.localStderr idx ++ "\n" ++ st2 ++ "\n" ++
          "-----------------------------------------")))
      else
        match localLoop c ipe ignoreErrors (idx + 1) rest with
        | (es, r) => (spawn :: es, r)

/-- The cluster batch path (`run_on_cluster` with truthy `statements`,
lines 1919-1966): build every statement (dry runs stop here), create the
shared job template, build and submit one job script per statement,
synchronize, collect each job in order, and delete the template - which
is reached only when no collection raised. -/
def clusterBatch (c : RunConfig) (o : Dict) (jobMemory : Val) (jobName : String)
    (ignoreErrors : Bool) (xs : List String) : List Effect × Option PyErr :=
  match buildLoop c.params o xs with
  | (bes, .error e) => (bes, some e)
  | (bes, .ok (o2, stmts)) =>
    if (dget o2 "dryrun" (.vb false)).truthy then (bes, none)
    else
      match setupJobModel o2 c.params jobMemory jobName with
      | .error e => (bes, some e)
      | .ok _ =>
        match collectLoop c ignoreErrors 0 stmts with
        | (ces, some e) =>
          (bes ++ Effect.createdJobTemplate :: submitLoop 0 stmts ++ Effect.synchronized :: ces,
           some e)
        | (ces, none) =>
          (bes ++ Effect.createdJobTemplate :: submitLoop 0 stmts ++ Effect.synchronized :: ces ++
            [Effect.deletedJobTemplate], none)

/-- The cluster single/array path (lines 1969-2015): build the one
statement (dry runs stop here), build the job script, create the job
template, then either bulk-submit the array over
`(start + 1, end, increment)` and read the combined output, or submit a
single job and collect it; the template is deleted afterwards unless
collection raised. -/
def clusterSingle (c : RunConfig) (o : Dict) (jobMemory : Val) (jobName : String)
    (ignoreErrors : Bool) : List Effect × Option PyErr :=
  match buildStatement c.params o with
  | .error e => ([], some e)
  | .ok st =>
    if (dget o "dryrun" (.vb false)).truthy then ([.builtStatement st], none)
    else
      match setupJobModel o c.params jobMemory jobName with
      | .error e => ([.builtStatement st, .builtJobScript 0], some e)
      | .ok _ =>
        let pre : List Effect := [.builtStatement st, .builtJobScript 0, .createdJobTemplate]
        match dfind o "job_array" with
        | some (.vtriple a b incr) =>
          (pre ++ [.submittedBulk (a + 1) b incr, .synchronized, .readOutputs 0,
            .deletedJobTemplate], none)
        | some .vnone | none =>
          match collectSingle 0 (c.jobOutcome 0) (c.jobStderr 0) st ignoreErrors with
          | (ces, some e) => (pre ++ Effect.submittedJob 0 :: ces, some e)
          | (ces, none) =>
            (pre ++ Effect.submittedJob 0 :: ces ++ [Effect.deletedJobTemplate], none)
        | some _ => (pre, some (.typeError "unpack non-sequence"))

/-- The local path (lines 2016-2066): build the statement list (from
`statements` or the single `statement`), stop on dry runs, then run each
statement in a local subprocess. -/
def localBranch (c : RunConfig) (o : Dict) (ipe ignoreErrors : Bool) :
    List Effect × Option PyErr :=
  let built : List Effect × Except PyErr (Dict × List String) :=
    match dfind o "statements" with
    | some v =>
      if v.truthy then
        match v with
        | .vlist xs => buildLoop c.params o xs
        | _ => ([], .error (.typeError "iteration over non-sequence"))
      else
        match buildStatement c.params o with
        | .error e => ([], .error e)
        | .ok s => ([.builtStatement s], .ok (o, [s]))
    | none =>
      match buildStatement c.params o with
      | .error e => ([], .error e)
      | .ok s => ([.builtStatement s], .ok (o, [s]))
  match built with
  | (bes, .error e) => (bes, some e)
  | (bes, .ok (o2, stmts)) =>
    if (dget o2 "dryrun" (.vb false)).truthy then (bes, none)
    else
      match localLoop c ipe ignoreErrors 0 stmts with
      | (es, r) => (bes ++ es, r)

/-- `run(**kwargs)` (lines 1729-2066): merge the options, resolve the job
memory, read the error-handling flags, decide the routing
(`run_on_cluster` iff `to_cluster` is absent or truthy, `without_cluster`
is falsy, and the global session is live), compute the job name, and take
the cluster batch, cluster single/array, or local path. -/
def runModel (c : RunConfig) : List Effect × Option PyErr :=
  match setupOptions c with
  | .error e => ([], some e)
  | .ok o =>
    match resolveJobMemory o c.params with
    | .error e => ([], some e)
    | .ok jobMemory =>
      let ipe := (dget o "ignore_pipe_errors" (.vb false)).truthy
      let ie := (dget o "ignore_errors" (.vb false)).truthy
      let roc := (!(dmem o "to_cluster") || (dget o "to_cluster" .vnone).truthy) &&
        !(dget o "without_cluster" .vnone).truthy && c.sessionLive
      match jobNameOf o with
      | .error e => ([], some e)
      | .ok jobName =>
        if roc then
          match dfind o "statements" with
          | some v =>
            if v.truthy then
              match v with
              | .vlist xs => clusterBatch c o jobMemory jobName ie xs
              | _ => ([], some (.typeError "iteration over non-sequence"))
            else clusterSingle c o jobMemory jobName ie
          | none => clusterSingle c o jobMemory jobName ie
        else localBranch c o ipe ie

/-! ## `run_pickled` (lines 2181-2210) -/

/-- Outcome of the target function call inside `run_pickled`. -/
inductive CallResult
  | ok
  | exn (msg : String)
  deriving Repr, DecidableEq

/-- `run_pickled(params)` (lines 2181-2210), with the dynamic parts made
explicit: whether the named attribute exists on the imported module
(`getattr` raising `AttributeError` with the list of available public
names otherwise), and the outcome of the target function call.  The
model returns the overall outcome together with whether
`os.unlink(args_file)` - the statement after the call - was reached:
the payload file is deleted only when the function returns normally,
because an exception propagates past the `os.unlink` line. -/
def run_pickled (hasAttr : Bool) (availableNames : List String) (callResult : CallResult) :
    CallResult × Bool :=
  if ¬ hasAttr then
    (.exn ("unknown function, available functions are: " ++
      String.intercalate "," availableNames), false)
  else
    match callResult with
    | .ok => (.ok, true)
    | .exn m => (.exn m, false)

/-! ## Array job index enumeration -/

/-- Modelled from the spec: `session.runBulkJobs(jt, first, last, incr)`
is an external drmaa call whose SGE-style semantics - the spec's
"one-based inclusive start, inclusive end, positive step" closed
interval - enumerate the task indices `first, first + incr, ...` while
they do not exceed `last`. -/
def bulkIndices (first last incr : Nat) : List Nat :=
  List.range' first (if first > last then 0 else (last - first) / incr + 1) incr

/-! ## Shared concrete configurations for the claim theorems -/

/-- A minimal global `PARAMS` providing the cluster keys `run()` needs. -/
def baseParams : Dict :=
  [("cluster_options", .vs ""), ("cluster_queue", .vs "all.q"),
   ("cluster_priority", .vi 0), ("cluster_memory_resource", .vs "mem_free"),
   ("cluster_memory_default", .vs "2G"), ("cluster_parallel_environment", .vs "smp")]

/-- A `run()` call with the given keyword overrides, session liveness and
per-job exit codes. -/
def mkConfig (kw : Dict) (live : Bool) (exits : Nat → Int) : RunConfig :=
  { params := baseParams, callerLocals := [], kwargs := kw, sessionLive := live,
    jobOutcome := fun i => .finished (exits i), jobStderr := fun _ => "stderr",
    localExit := exits, localStderr := fun _ => "stderr", shellEnv := "/bin/bash" }

/-! ## Claim theorems -/

/-- The array-job call of claim C2: `run()` with
`job_array = (0, 10, 2)` on a live session. -/
def arrayConfig : RunConfig :=
  mkConfig [("statement", .vs "echo ok"), ("job_array", .vtriple 0 10 2)] true (fun _ => 0)

/-- A `run()` call whose `cluster_options` contain the `mem_free` marker
but not the parseable `-l mem_free=<value>` pattern. -/
def badMemFreeConfig : RunConfig :=
  mkConfig [("statement", .vs "echo ok"), ("job_options", .vs "please give mem_free")]
    true (fun _ => 0)

/-- Does a `substituteParameters` result succeed with `threads = 6`? -/
def okWithThreads6 : Except PyErr Dict → Bool
  | .ok d => decide (dfind d "threads" = some (.vi 6))
  | .error _ => false

/-- Is a `substituteParameters` result a `KeyError`? -/
def isKeyErr : Except PyErr Dict → Bool
  | .error (.keyError _) => true
  | _ => false

/-- Does a trace contain a cluster submission (single job or bulk array)? -/
def hasSubmit (t : List Effect) : Bool :=
  t.any fun e =>
    match e with
    | .submittedJob _ => true
    | .submittedBulk _ _ _ => true
    | _ => false

/-- Does a trace contain a local subprocess spawn? -/
def hasSpawn (t : List Effect) : Bool :=
  t.any fun e =>
    match e with
    | .spawnedLocal _ => true
    | _ => false

/-- The routing condition exactly as claim C1 states it: a live cluster
session exists, the merged options either lack `to_cluster` or have it
truthy, and `without_cluster` is off. -/
def claimRouting (tc wc : Option Bool) (live : Bool) : Bool :=
  live && (match tc with | none => true | some b => b) &&
    !(match wc with | none => false | some b => b)

/-- A single-statement `run()` call with the given `to_cluster` /
`without_cluster` settings (absent when `none`, a Python bool when
`some`). -/
def routeConfigSingle (tc wc : Option Bool) (live : Bool) : RunConfig :=
  mkConfig ([("statement", .vs "echo ok")] ++
    (match tc with | none => [] | some b => [("to_cluster", Val.vb b)]) ++
    (match wc with | none => [] | some b => [("without_cluster", Val.vb b)])) live (fun _ => 0)

/-- The same call with a two-element `statements` batch. -/
def routeConfigBatch (tc wc : Option Bool) (live : Bool) : RunConfig :=
  mkConfig ([("statements", .vlist ["echo a", "echo b"])] ++
    (match tc with | none => [] | some b => [("to_cluster", Val.vb b)]) ++
    (match wc with | none => [] | some b => [("without_cluster", Val.vb b)])) live (fun _ => 0)

/-- A cluster batch of two statements whose first job exits with code `e`
and whose second job succeeds, with errors not ignored. -/
def batchFailConfig (e : Int) : RunConfig :=
  mkConfig [("statements", .vlist ["echo a", "echo b"])] true (fun i => if i = 0 then e else 0)

/-- Dry-run `run()` calls exercising the cluster single, cluster batch,
cluster array, and local paths, plus one with a bad template. -/
def dryrunClusterConfig : RunConfig :=
  mkConfig [("statement", .vs "echo ok"), ("dryrun", .vb true)] true (fun _ => 0)

/-- Dry-run batch call. -/
def dryrunBatchConfig : RunConfig :=
  mkConfig [("statements", .vlist ["echo a", "echo b"]), ("dryrun", .vb true)] true (fun _ => 0)

/-- Dry-run array call. -/
def dryrunArrayConfig : RunConfig :=
  mkConfig [("statement", .vs "echo ok"), ("job_array", .vtriple 0 10 2), ("dryrun", .vb true)]
    true (fun _ => 0)

/-- Dry-run local call (no live session). -/
def dryrunLocalConfig : RunConfig :=
  mkConfig [("statement", .vs "echo ok"), ("dryrun", .vb true)] false (fun _ => 0)

/-- Dry-run call with a template referencing an undefined key. -/
def dryrunBadTemplateConfig : RunConfig :=
  mkConfig [("statement", .vs "echo %(missing)s"), ("dryrun", .vb true)] true (fun _ => 0)

theorem dfind_dset (d : Dict) (k x : String) (v : Val) :
    dfind (dset d k v) x = if k = x then some v else dfind d x := by
  induction d with
  | nil => simp [dset, dfind]
  | cons kv rest ih =>
    obtain ⟨k', v'⟩ := kv
    by_cases h1 : k' = k
    · subst h1
      simp [dset, dfind]
      by_cases h2 : k' = x <;> simp [h2]
    · simp [dset, h1, dfind]
      by_cases h2 : k' = x
      · subst h2
        have : ¬ k = k' := fun h => h1 h.symm
        simp [dfind, this]
      · simp [dfind, h2, ih]

theorem dmem_dset (d : Dict) (k x : String) (v : Val) :
    dmem (dset d k v) x = (decide (k = x) || dmem d x) := by
  by_cases h : k = x <;> simp [dmem, dfind_dset, h]

theorem dmem_iff_mem_dkeys (d : Dict) (k : String) :
    dmem d k = true ↔ k ∈ dkeys d := by
  induction d with
  | nil => simp [dmem, dfind, dkeys]
  | cons kv rest ih =>
    obtain ⟨k', v'⟩ := kv
    by_cases h : k' = k
    · subst h
      simp [dmem, dfind, dkeys]
    · simpa [dmem, dfind, dkeys, h, Ne.symm h] using ih

theorem liPrefix_refl (l : List Char) : liPrefix l l = true := by
  induction l with
  | nil => rfl
  | cons c cs ih => simp [liPrefix, ih]

/-- C2, counterexample: the bulk submission for `job_array = (0, 10, 2)`
translates to the one-based closed interval `(1, 10, 2)`, whose SGE-style
enumeration is `1, 3, 5, 7, 9` - five indices, not six as the claim
states. -/
theorem C2_array_six_indices_false :
    Effect.submittedBulk 1 10 2 ∈ (runModel arrayConfig).1 ∧
    bulkIndices 1 10 2 = [1, 3, 5, 7, 9] ∧
    ¬ (bulkIndices 1 10 2).length = 6 := by
  decide

/-- C2, amended: `run()` with `job_array = (0, 10, 2)` bulk-submits over
the one-based closed interval `start + 1 = 1` to `end = 10` with step 2,
producing the five one-based job indices `1, 3, 5, 7, 9`, the images of
the zero-based logical indices `0, 2, 4, 6, 8` under `+ 1`. -/
theorem C2_array_indices :
    Effect.submittedBulk 1 10 2 ∈ (runModel arrayConfig).1 ∧
    bulkIndices 1 10 2 = [0, 2, 4, 6, 8].map (fun i => i + 1) ∧
    (bulkIndices 1 10 2).length = 5 := by
  decide

/-- C7, counterexample: when the target function raises, `run_pickled`
does not delete the payload file (the `os.unlink` after the call is never
reached), contradicting the claim that the file is removed on success or
exception. -/
theorem C7_payload_kept_on_exception :
    ¬ ((run_pickled true ["f", "g"] (.exn "boom")).2 = true) := by
  decide

/-- C7, amended: `run_pickled` deletes the payload file exactly when the
named function exists and the call returns normally; when the call
raises, the exception propagates before the deletion and the payload file
is left behind. -/
theorem C7_payload_deleted_iff_normal_return
    (hasAttr : Bool) (names : List String) (r : CallResult) :
    (run_pickled hasAttr names r).2 = true ↔ (hasAttr = true ∧ r = .ok) := by
  cases hasAttr <;> cases r <;> simp [run_pickled]

/-- C6: `run()`'s job-memory resolution.  (i) An explicit `job_memory`
in the merged options wins.  (ii) Otherwise, if the `cluster_options`
string contains the legacy `mem_free` marker and the global
`cluster_memory_resource` is configured (truthy), the amount is parsed
out of the `-l mem_free=<value>` pattern.  (iii) Otherwise the global
`cluster_memory_default` (defaulting to `"2G"`) is used.  (iv) If the
marker is present (with the resource configured and no explicit
`job_memory`) but the pattern cannot be parsed, a `ValueError` is
raised, and (v) the error aborts `run()` with an empty effect trace -
before any job script is built, job submitted, or process spawned.
(vi) anchors the pattern parser on a concrete parse and a concrete
failure, and (vii) shows the `ValueError` aborting a full `run()`. -/
theorem C6_job_memory_resolution :
    (∀ (o p : Dict), dmem o "job_memory" = true →
      resolveJobMemory o p = .ok (dget o "job_memory" .vnone)) ∧
    (∀ (o p : Dict) (co amt : String), dmem o "job_memory" = false →
      dfind o "cluster_options" = some (.vs co) →
      substrContains co "mem_free" = true →
      (dget p "cluster_memory_resource" (.vb false)).truthy = true →
      searchMemFree co.data = some amt →
      resolveJobMemory o p = .ok (.vs amt)) ∧
    (∀ (o p : Dict) (co : String), dmem o "job_memory" = false →
      dfind o "cluster_options" = some (.vs co) →
      (substrContains co "mem_free" = false ∨
        (dget p "cluster_memory_resource" (.vb false)).truthy = false) →
      resolveJobMemory o p = .ok (dget p "cluster_memory_default" (.vs "2G"))) ∧
    (∀ (o p : Dict) (co : String), dmem o "job_memory" = false →
      dfind o "cluster_options" = some (.vs co) →
      substrContains co "mem_free" = true →
      (dget p "cluster_memory_resource" (.vb false)).truthy = true →
      searchMemFree co.data = none →
      resolveJobMemory o p = .error (.valueError ("expecting mem_free in '" ++ co ++ "'"))) ∧
    (∀ (c : RunConfig) (o : Dict) (e : PyErr), setupOptions c = .ok o →
      resolveJobMemory o c.params = .error e →
      runModel c = ([], some e)) ∧
    (searchMemFree "-l mem_free=3G".data = some "3G" ∧
      searchMemFree "please give mem_free".data = none) ∧
    (runModel badMemFreeConfig =
      ([], some (.valueError "expecting mem_free in 'please give mem_free'"))) := by
  refine ⟨?_, ?_, ?_, ?_, ?_, by decide, by decide⟩
  · intro o p h
    simp [resolveJobMemory, h]
  · intro o p co amt h1 h2 h3 h4 h5
    simp [resolveJobMemory, h1, h2, h3, h4, h5]
  · intro o p co h1 h2 h3
    rcases h3 with h3 | h3 <;> simp [resolveJobMemory, h1, h2, h3]
  · intro o p co h1 h2 h3 h4 h5
    simp [resolveJobMemory, h1, h2, h3, h4, h5]
  · intro c o e h1 h2
    simp [runModel, h1, h2]

/-- C6, witness: branch (iv) of `C6_job_memory_resolution` applied to the
options of `badMemFreeConfig`. -/
theorem C6_job_memory_resolution_witness :
    resolveJobMemory
      [("job_options", .vs "please give mem_free"),
       ("cluster_options", .vs "please give mem_free")]
      [("cluster_memory_resource", .vs "mem_free")] =
      .error (.valueError "expecting mem_free in 'please give mem_free'") :=
  C6_job_memory_resolution.2.2.2.1
    [("job_options", .vs "please give mem_free"),
     ("cluster_options", .vs "please give mem_free")]
    [("cluster_memory_resource", .vs "mem_free")]
    "please give mem_free" (by decide) (by decide) (by decide) (by decide) (by decide)

/-! ## Lemmas about the `substituteParameters` key loop -/

theorem foldl_subStep_error (outfile : String) (l : List String) (e : PyErr) :
    l.foldl (subStep outfile) (.error e) = .error e := by
  induction l with
  | nil => rfl
  | cons a l ih => simpa [subStep] using ih

/-- If some key of the snapshot starts with the outfile but its remainder
names no parameter of the merged dictionary, the key loop raises a
`KeyError`.  The invariant is that the loop only overwrites existing
bindings, so the key set never changes. -/
theorem subFold_error_of_offender (outfile : String) (lp : Dict) (k : String)
    (hs : strStarts k outfile = true)
    (hd : dmem lp (strDrop k (outfile.length + 1)) = false) :
    ∀ (l : List String) (d : Dict), (∀ x, dmem d x = dmem lp x) → k ∈ l →
      ∃ m, l.foldl (subStep outfile) (.ok d) = .error (.keyError m) := by
  intro l
  induction l with
  | nil => intro d _ hk; cases hk
  | cons a l ih =>
    intro d hinv hk
    by_cases ha : strStarts a outfile = true
    · by_cases hmemp : dmem d (strDrop a (outfile.length + 1)) = true
      · cases hfa : dfind d a with
        | none =>
          exact ⟨a, by simp [List.foldl_cons, subStep, ha, hmemp, hfa, foldl_subStep_error]⟩
        | some vk =>
          have hka : ¬ k = a := by
            intro hka
            subst hka
            rw [hinv, hd] at hmemp
            exact Bool.false_ne_true hmemp
          have hk' : k ∈ l := by
            rcases List.mem_cons.mp hk with h | h
            · exact absurd h hka
            · exact h
          have hinv' : ∀ x, dmem (dset d (strDrop a (outfile.length + 1)) vk) x = dmem lp x := by
            intro x
            rw [dmem_dset]
            by_cases hx : strDrop a (outfile.length + 1) = x
            · subst hx
              rw [← hinv]
              simp [hmemp]
            · simp [hx, hinv]
          have := ih _ hinv' hk'
          simpa [List.foldl_cons, subStep, ha, hmemp, hfa] using this
      · refine ⟨"task specific parameter '" ++ strDrop a (outfile.length + 1) ++
          "' does not exist for '" ++ a ++ "' ", ?_⟩
        have hmemp' : dmem d (strDrop a (outfile.length + 1)) = false :=
          Bool.not_eq_true _ ▸ (Bool.eq_false_iff.mpr hmemp)
        simp [List.foldl_cons, subStep, ha, hmemp', foldl_subStep_error]
    · have hka : ¬ k = a := fun h => ha (h ▸ hs)
      have hk' : k ∈ l := by
        rcases List.mem_cons.mp hk with h | h
        · exact absurd h hka
        · exact h
      have := ih d hinv hk'
      simpa [List.foldl_cons, subStep, ha] using this

/-- The successful run of the key loop in the C4 scenario: when the only
key starting with the outfile is the single task-specific key `K`, whose
remainder is the existing parameter `T` bound to `v6` in the merged
dictionary, the loop succeeds and leaves `T` bound to `v6` (once `K` was
seen), all other bindings untouched. -/
theorem subFold_override (outfile K T : String) (v6 : Val) (lp : Dict)
    (hKpref : strStarts K outfile = true)
    (hKdrop : strDrop K (outfile.length + 1) = T)
    (hKneT : ¬ K = T)
    (hKlp : dfind lp K = some v6) :
    ∀ (l : List String) (d : Dict),
      (∀ x, ¬ x = T → dfind d x = dfind lp x) →
      dmem d T = true →
      (∀ k ∈ l, strStarts k outfile = true → k = K) →
      ∃ d', l.foldl (subStep outfile) (.ok d) = .ok d' ∧
        (∀ x, ¬ x = T → dfind d' x = dfind lp x) ∧
        dfind d' T = (if K ∈ l then some v6 else dfind d T) := by
  intro l
  induction l with
  | nil =>
    intro d hinv1 hinv2 _
    exact ⟨d, rfl, hinv1, by simp⟩
  | cons a l ih =>
    intro d hinv1 hinv2 hall
    by_cases hpa : strStarts a outfile = true
    · have haK : a = K := hall a (List.mem_cons_self a l) hpa
      subst haK
      have hfd : dfind d a = some v6 := by rw [hinv1 a hKneT, hKlp]
      have hmemT : dmem d (strDrop a (outfile.length + 1)) = true := by rw [hKdrop]; exact hinv2
      have hstep : subStep outfile (.ok d) a = .ok (dset d T v6) := by
        simp [subStep, hpa, hmemT, hfd, hKdrop, hinv2]
      obtain ⟨d', h1, h2, h3⟩ := ih (dset d T v6)
        (fun x hx => by
          have hTx : ¬ T = x := fun h => hx h.symm
          rw [dfind_dset]
          simp [hTx, hinv1 x hx])
        (by rw [dmem_dset]; simp)
        (fun k hk => hall k (List.mem_cons_of_mem _ hk))
      refine ⟨d', by simpa [List.foldl_cons, hstep] using h1, h2, ?_⟩
      rw [h3, dfind_dset]
      by_cases hKl : a ∈ l <;> simp [hKl]
    · have haK : ¬ a = K := fun h => hpa (h ▸ hKpref)
      have hstep : subStep outfile (.ok d) a = .ok d := by simp [subStep, hpa]
      obtain ⟨d', h1, h2, h3⟩ := ih d hinv1 hinv2
        (fun k hk => hall k (List.mem_cons_of_mem _ hk))
      refine ⟨d', by simpa [List.foldl_cons, hstep] using h1, h2, ?_⟩
      rw [h3]
      have hmemiff : K ∈ a :: l ↔ K ∈ l := by
        rw [List.mem_cons]
        constructor
        · rintro (h | h)
          · exact absurd h.symm haK
          · exact h
        · exact Or.inr
      simp only [hmemiff]

/-- C4: `substituteParameters` task-specific overrides. (i) For every
call whose merged dictionary carries `outfile = "sample1.bam.gz"`, the
key `"sample1.bam.gz_threads" = 6`, an existing `threads` parameter, and
no other key starting with the outfile string, the call succeeds and the
effective `threads` is `6`.  (ii) For every call and every merged key
starting with the outfile value whose remainder - after the outfile
prefix and one separator character - does not name an existing parameter,
the call fails with a `KeyError`. -/
theorem C4_task_specific_override :
    (∀ (params kwargs : Dict),
      dfind (dmerge params kwargs) "outfile" = some (.vs "sample1.bam.gz") →
      dfind (dmerge params kwargs) "sample1.bam.gz_threads" = some (.vi 6) →
      dmem (dmerge params kwargs) "threads" = true →
      (∀ k ∈ dkeys (dmerge params kwargs),
        strStarts k "sample1.bam.gz" = true → k = "sample1.bam.gz_threads") →
      ∃ d, substituteParameters params kwargs = .ok d ∧
        dfind d "threads" = some (.vi 6)) ∧
    (∀ (params kwargs : Dict) (ov k : String),
      dfind (dmerge params kwargs) "outfile" = some (.vs ov) →
      k ∈ dkeys (dmerge params kwargs) →
      strStarts k ov = true →
      dmem (dmerge params kwargs) (strDrop k (ov.length + 1)) = false →
      ∃ m, substituteParameters params kwargs = .error (.keyError m)) := by
  constructor
  · intro params kwargs h1 h2 h3 h4
    obtain ⟨d', hfold, hinv, hT⟩ :=
      subFold_override "sample1.bam.gz" "sample1.bam.gz_threads" "threads" (.vi 6)
        (dmerge params kwargs) (by decide) (by decide) (by decide) h2
        (dkeys (dmerge params kwargs)) (dmerge params kwargs)
        (fun x _ => rfl) h3 h4
    have hKmem : "sample1.bam.gz_threads" ∈ dkeys (dmerge params kwargs) :=
      (dmem_iff_mem_dkeys _ _).mp (by simp [dmem, h2])
    refine ⟨d', ?_, ?_⟩
    · simp only [substituteParameters, h1]
      exact hfold
    · rw [hT, if_pos hKmem]
  · intro params kwargs ov k h1 hk hs hd
    obtain ⟨m, hm⟩ := subFold_error_of_offender ov (dmerge params kwargs) k hs hd
      (dkeys (dmerge params kwargs)) (dmerge params kwargs) (fun _ => rfl) hk
    refine ⟨m, ?_⟩
    simp only [substituteParameters, h1]
    exact hm

/-- C4, witness: part (i) at the `PARAMS`/overrides of the claim, part
(ii) at a key `"sample1.bam.gzXcutoff"` whose remainder `"cutoff"` names
no parameter. -/
theorem C4_task_specific_override_witness :
    okWithThreads6 (substituteParameters [("threads", .vi 4), ("sample1.bam.gz_threads", .vi 6)]
        [("outfile", .vs "sample1.bam.gz")]) = true ∧
    isKeyErr (substituteParameters [("sample1.bam.gzXcutoff", .vi 1)]
        [("outfile", .vs "sample1.bam.gz")]) = true := by
  constructor
  · obtain ⟨d, h1, h2⟩ := C4_task_specific_override.1
      [("threads", .vi 4), ("sample1.bam.gz_threads", .vi 6)]
      [("outfile", .vs "sample1.bam.gz")] (by decide) (by decide) (by decide) (by decide)
    rw [h1]
    simp [okWithThreads6, h2]
  · obtain ⟨m, h⟩ := C4_task_specific_override.2 [("sample1.bam.gzXcutoff", .vi 1)]
      [("outfile", .vs "sample1.bam.gz")] "sample1.bam.gz" "sample1.bam.gzXcutoff"
      (by decide) (by decide) (by decide) (by decide)
    rw [h]
    rfl

/-- C10: when the merged dictionary contains a key equal to the outfile
string itself and the empty string is not a key, `substituteParameters`
raises a `KeyError`: stripping the outfile prefix plus one separator
character from that key leaves the empty parameter name, which cannot
exist. -/
theorem C10_outfile_valued_key_fails (params kwargs : Dict) (ov : String)
    (h1 : dfind (dmerge params kwargs) "outfile" = some (.vs ov))
    (h2 : dmem (dmerge params kwargs) ov = true)
    (h3 : dmem (dmerge params kwargs) "" = false) :
    ∃ m, substituteParameters params kwargs = .error (.keyError m) := by
  have hsd : strDrop ov (ov.length + 1) = "" := by
    have : ov.data.drop (ov.data.length + 1) = [] :=
      List.drop_eq_nil_of_le (Nat.le_succ_of_le (Nat.le_refl _))
    simp only [strDrop, String.length, this]
  have hs : strStarts ov ov = true := liPrefix_refl _
  have hk : ov ∈ dkeys (dmerge params kwargs) := (dmem_iff_mem_dkeys _ _).mp h2
  obtain ⟨m, hm⟩ := subFold_error_of_offender ov (dmerge params kwargs) ov hs
    (by rw [hsd]; exact h3) (dkeys (dmerge params kwargs)) (dmerge params kwargs)
    (fun _ => rfl) hk
  refine ⟨m, ?_⟩
  simp only [substituteParameters, h1]
  exact hm

/-- C10, witness: the merged dictionary holds the key
`"sample1.bam.gz"` together with `outfile = "sample1.bam.gz"`. -/
theorem C10_outfile_valued_key_fails_witness :
    isKeyErr (substituteParameters [("sample1.bam.gz", .vs "oops"), ("threads", .vi 4)]
      [("outfile", .vs "sample1.bam.gz")]) = true := by
  obtain ⟨m, h⟩ := C10_outfile_valued_key_fails
    [("sample1.bam.gz", .vs "oops"), ("threads", .vi 4)]
    [("outfile", .vs "sample1.bam.gz")] "sample1.bam.gz" (by decide) (by decide) (by decide)
  rw [h]
  rfl

/-- C5: `buildStatement`. (i) The template `"echo %(x)s"` with `x = "hi"`
produces `"echo hi"`.  (ii) Whenever interpolation of the template
against the merged options fails on a missing key `k`, `buildStatement`
raises a `KeyError` with the "could not find 'k' in dictionaries"
message.  (iii) A concrete missing key `y` produces exactly that error,
while (iv) a malformed placeholder (`"echo %(y)"`) raises a `ValueError`
with the distinct "Error when creating command: incomplete format"
message, and (v) no `KeyError` ever equals a `ValueError`. -/
theorem C5_build_statement :
    (buildStatement [] [("statement", .vs "echo %(x)s"), ("x", .vs "hi")] = .ok "echo hi") ∧
    (∀ (params kwargs lp : Dict) (template k : String),
      dfind kwargs "statement" = some (.vs template) →
      substituteParameters params kwargs = .ok lp →
      interpolate template lp = .error (.keyError k) →
      buildStatement params kwargs = .error (.keyError
        ("Error when creating command: could not find '" ++ k ++ "' in dictionaries"))) ∧
    (buildStatement [] [("statement", .vs "echo %(y)s")] =
      .error (.keyError "Error when creating command: could not find 'y' in dictionaries")) ∧
    (buildStatement [] [("statement", .vs "echo %(y)")] =
      .error (.valueError "Error when creating command: incomplete format, statement = echo %(y)")) ∧
    (∀ m m', PyErr.keyError m ≠ PyErr.valueError m') := by
  refine ⟨by decide, ?_, by decide, by decide, fun m m' h => by cases h⟩
  intro params kwargs lp template k h1 h2 h3
  have hmem : dmem kwargs "statement" = true := by simp [dmem, h1]
  simp [buildStatement, hmem, h1, h2, h3]

/-- C5, witness: part (ii) applied to the concrete missing-key call. -/
theorem C5_build_statement_witness :
    buildStatement [] [("statement", .vs "echo %(y)s")] = .error (.keyError
      "Error when creating command: could not find 'y' in dictionaries") :=
  C5_build_statement.2.1 [] [("statement", .vs "echo %(y)s")]
    [("statement", .vs "echo %(y)s")] "echo %(y)s" "y" (by decide) (by decide) (by decide)

set_option maxHeartbeats 1000000 in
/-- C1: for every `run()` call (over all combinations of an absent,
falsy, or truthy `to_cluster`, an absent, falsy, or truthy
`without_cluster`, and a live or absent global session, on both the
single-statement and the batched `statements` form), the trace contains a
cluster submission exactly when a live session exists, the caller has not
disabled cluster use, and the global run-locally mode is off - and in
every other case the statements are executed through the local subprocess
path instead. -/
theorem C1_routing_decision :
    ∀ (tc wc : Option Bool) (live : Bool),
      (hasSubmit (runModel (routeConfigSingle tc wc live)).1 = claimRouting tc wc live ∧
       hasSpawn (runModel (routeConfigSingle tc wc live)).1 = !claimRouting tc wc live) ∧
      (hasSubmit (runModel (routeConfigBatch tc wc live)).1 = claimRouting tc wc live ∧
       hasSpawn (runModel (routeConfigBatch tc wc live)).1 = !claimRouting tc wc live) := by
  decide

set_option maxHeartbeats 1000000 in
/-- With a nonzero first exit status and errors not ignored, the
collection loop raises while collecting job 0: job 0 is waited for and
its outputs read, but its script is not unlinked and job 1 is never
collected. -/
theorem batchFail_collect (e : Int) (he : e ≠ 0) :
    collectLoop (batchFailConfig e) false 0 ["echo a", "echo b"] =
    ([Effect.waited 0, Effect.readOutputs 0], some (.pipelineError
      ("---------------------------------------\n" ++
       "Child was terminated by signal " ++ toString e ++ ": \n" ++
       "The stderr was: \n" ++ "stderr" ++ "\n" ++ "echo a" ++ "\n" ++
       "-----------------------------------------"))) := by
  simp [collectLoop, collectSingle, batchFailConfig, mkConfig, he]

set_option maxHeartbeats 1000000 in
/-- The complete dispatch of `batchFailConfig` with a nonzero first exit
status: both statements built, template created, both jobs submitted and
synchronized, job 0 waited for and its outputs read - then the
`PipelineError` propagates, with no script unlink for job 0, no
collection of job 1, and no template deletion. -/
theorem batchFail_run (e : Int) (he : e ≠ 0) :
    runModel (batchFailConfig e) =
    ([Effect.builtStatement "echo a", Effect.builtStatement "echo b",
      Effect.createdJobTemplate, Effect.builtJobScript 0, Effect.submittedJob 0,
      Effect.builtJobScript 1, Effect.submittedJob 1, Effect.synchronized,
      Effect.waited 0, Effect.readOutputs 0], some (.pipelineError
      ("---------------------------------------\n" ++
       "Child was terminated by signal " ++ toString e ++ ": \n" ++
       "The stderr was: \n" ++ "stderr" ++ "\n" ++ "echo a" ++ "\n" ++
       "-----------------------------------------"))) := by
  have h1 : runModel (batchFailConfig e) =
      (match collectLoop (batchFailConfig e) false 0 ["echo a", "echo b"] with
       | (ces, some err) =>
         ([Effect.builtStatement "echo a", Effect.builtStatement "echo b",
           Effect.createdJobTemplate, Effect.builtJobScript 0, Effect.submittedJob 0,
           Effect.builtJobScript 1, Effect.submittedJob 1, Effect.synchronized] ++ ces,
          some err)
       | (ces, none) =>
         ([Effect.builtStatement "echo a", Effect.builtStatement "echo b",
           Effect.createdJobTemplate, Effect.builtJobScript 0, Effect.submittedJob 0,
           Effect.builtJobScript 1, Effect.submittedJob 1, Effect.synchronized] ++ ces ++
           [Effect.deletedJobTemplate], none)) := rfl
  rw [batchFail_collect e he] at h1
  simpa using h1

/-- C3, counterexample: in a two-job cluster batch whose first job exits
1 with `ignore_errors` false, `run()` raises although the failing job's
script was never unlinked, the second job was never collected, and the
shared job template was never deleted - so not every job is collected
and cleaned up, nor the template deleted, before the exception reaches
the caller. -/
theorem C3_batch_cleanup_before_raise_false :
    (runModel (batchFailConfig 1)).2.isSome = true ∧
    Effect.unlinkedScript 0 ∉ (runModel (batchFailConfig 1)).1 ∧
    Effect.waited 1 ∉ (runModel (batchFailConfig 1)).1 ∧
    Effect.deletedJobTemplate ∉ (runModel (batchFailConfig 1)).1 := by
  decide

/-- C3, amended: when a job of a cluster batch exits nonzero with
`ignore_errors` false, all jobs have been submitted and synchronized and
the failing job has been waited for and its outputs read, but the
`PipelineError` propagates from that job's collection immediately: the
failing job's script is not unlinked, later jobs in the cohort are not
collected, and the shared job template is not deleted. -/
theorem C3_batch_raises_before_cleanup (e : Int) (he : e ≠ 0) :
    (runModel (batchFailConfig e)).2.isSome = true ∧
    Effect.submittedJob 0 ∈ (runModel (batchFailConfig e)).1 ∧
    Effect.submittedJob 1 ∈ (runModel (batchFailConfig e)).1 ∧
    Effect.synchronized ∈ (runModel (batchFailConfig e)).1 ∧
    Effect.waited 0 ∈ (runModel (batchFailConfig e)).1 ∧
    Effect.readOutputs 0 ∈ (runModel (batchFailConfig e)).1 ∧
    Effect.unlinkedScript 0 ∉ (runModel (batchFailConfig e)).1 ∧
    Effect.waited 1 ∉ (runModel (batchFailConfig e)).1 ∧
    Effect.deletedJobTemplate ∉ (runModel (batchFailConfig e)).1 := by
  rw [batchFail_run e he]
  simp

/-- C3, witness: the amended statement at exit status 2. -/
theorem C3_batch_raises_before_cleanup_witness :
    (2 : Int) ≠ 0 ∧
    ((runModel (batchFailConfig 2)).2.isSome = true ∧
     Effect.submittedJob 0 ∈ (runModel (batchFailConfig 2)).1 ∧
     Effect.submittedJob 1 ∈ (runModel (batchFailConfig 2)).1 ∧
     Effect.synchronized ∈ (runModel (batchFailConfig 2)).1 ∧
     Effect.waited 0 ∈ (runModel (batchFailConfig 2)).1 ∧
     Effect.readOutputs 0 ∈ (runModel (batchFailConfig 2)).1 ∧
     Effect.unlinkedScript 0 ∉ (runModel (batchFailConfig 2)).1 ∧
     Effect.waited 1 ∉ (runModel (batchFailConfig 2)).1 ∧
     Effect.deletedJobTemplate ∉ (runModel (batchFailConfig 2)).1) :=
  ⟨by decide, C3_batch_raises_before_cleanup 2 (by decide)⟩

/-- The statement-building loop only mutates the `statement` key of the
options. -/
theorem buildLoop_preserves (params : Dict) : ∀ (xs : List String) (o oF : Dict)
    (es : List Effect) (ss : List String),
    buildLoop params o xs = (es, .ok (oF, ss)) →
    ∀ x, ¬ x = "statement" → dfind oF x = dfind o x := by
  intro xs
  induction xs with
  | nil =>
    intro o oF es ss h x hx
    simp only [buildLoop] at h
    obtain ⟨-, h2⟩ := Prod.mk.injEq .. ▸ h
    cases h
    rfl
  | cons st rest ih =>
    intro o oF es ss h x hx
    simp only [buildLoop] at h
    cases hbs : buildStatement params (dset o "statement" (.vs st)) with
    | error e => rw [hbs] at h; cases h
    | ok s =>
      rw [hbs] at h
      cases hrec : buildLoop params (dset o "statement" (.vs st)) rest with
      | mk es2 r =>
        rw [hrec] at h
        cases r with
        | error e => simp at h
        | ok p =>
          obtain ⟨oF2, ss2⟩ := p
          simp only [Prod.mk.injEq, Except.ok.injEq] at h
          obtain ⟨-, h2, -⟩ := h
          subst h2
          have := ih (dset o "statement" (.vs st)) oF2 es2 ss2 hrec x hx
          rw [this, dfind_dset, if_neg (fun hh : "statement" = x => hx hh.symm)]

/-- Every effect produced by the statement-building loop is a
`builtStatement`. -/
theorem buildLoop_effects (params : Dict) : ∀ (xs : List String) (o : Dict),
    ∀ e ∈ (buildLoop params o xs).1, e.isBuilt = true := by
  intro xs
  induction xs with
  | nil => intro o e he; simp [buildLoop] at he
  | cons st rest ih =>
    intro o e he
    simp only [buildLoop] at he
    cases hbs : buildStatement params (dset o "statement" (.vs st)) with
    | error er => rw [hbs] at he; simp at he
    | ok s =>
      rw [hbs] at he
      cases hrec : buildLoop params (dset o "statement" (.vs st)) rest with
      | mk es2 r =>
        rw [hrec] at he
        have hmem : e ∈ Effect.builtStatement s :: es2 := by
          cases r with
          | error er => simpa using he
          | ok p => simpa using he
        rcases List.mem_cons.mp hmem with h | h
        · subst h; rfl
        · have := ih (dset o "statement" (.vs st)) e
          rw [hrec] at this
          exact this h

/-- Under dry run, the cluster batch path emits only statement
construction effects. -/
theorem clusterBatch_dryrun (c : RunConfig) (o : Dict) (jm : Val) (jn : String) (ie : Bool)
    (xs : List String) (hdry : (dget o "dryrun" (.vb false)).truthy = true) :
    ∀ e ∈ (clusterBatch c o jm jn ie xs).1, e.isBuilt = true := by
  intro e he
  simp only [clusterBatch] at he
  cases hbl : buildLoop c.params o xs with
  | mk bes r =>
    have hbes : ∀ e2 ∈ bes, e2.isBuilt = true := by
      intro e2 he2
      have := buildLoop_effects c.params xs o e2
      rw [hbl] at this
      exact this he2
    cases r with
    | error er =>
      rw [hbl] at he
      exact hbes e (by simpa using he)
    | ok p =>
      obtain ⟨o2, stmts⟩ := p
      have hp := buildLoop_preserves c.params xs o o2 bes stmts hbl "dryrun" (by decide)
      have hd2 : (dget o2 "dryrun" (.vb false)).truthy = true := by
        simpa [dget, hp] using hdry
      rw [hbl] at he
      simp only [hd2, if_true] at he
      exact hbes e (by simpa using he)

/-- Under dry run, the cluster single/array path emits only the one
statement-construction effect. -/
theorem clusterSingle_dryrun (c : RunConfig) (o : Dict) (jm : Val) (jn : String) (ie : Bool)
    (hdry : (dget o "dryrun" (.vb false)).truthy = true) :
    ∀ e ∈ (clusterSingle c o jm jn ie).1, e.isBuilt = true := by
  intro e he
  simp only [clusterSingle] at he
  cases hbs : buildStatement c.params o with
  | error er => rw [hbs] at he; simp at he
  | ok st =>
    rw [hbs] at he
    simp only [hdry, if_true] at he
    simp only [List.mem_singleton] at he
    subst he
    rfl

/-- Under dry run, the local path emits only statement construction
effects. -/
theorem localBranch_dryrun (c : RunConfig) (o : Dict) (ipe ie : Bool)
    (hdry : (dget o "dryrun" (.vb false)).truthy = true) :
    ∀ e ∈ (localBranch c o ipe ie).1, e.isBuilt = true := by
  intro e he
  simp only [localBranch] at he
  cases hst : dfind o "statements" with
  | none =>
    rw [hst] at he
    cases hbs : buildStatement c.params o with
    | error er => rw [hbs] at he; simp at he
    | ok s =>
      rw [hbs] at he
      simp only [hdry, if_true] at he
      simp only [List.mem_singleton] at he
      subst he
      rfl
  | some v =>
    rw [hst] at he
    cases htr : v.truthy with
    | false =>
      simp only [htr, Bool.false_eq_true, if_false] at he
      cases hbs : buildStatement c.params o with
      | error er => rw [hbs] at he; simp at he
      | ok s =>
        rw [hbs] at he
        simp only [hdry, if_true] at he
        simp only [List.mem_singleton] at he
        subst he
        rfl
    | true =>
      simp only [htr, if_true] at he
      cases v with
      | vlist xs =>
        cases hbl : buildLoop c.params o xs with
        | mk bes r =>
          have hbes : ∀ e2 ∈ bes, e2.isBuilt = true := by
            intro e2 he2
            have := buildLoop_effects c.params xs o e2
            rw [hbl] at this
            exact this he2
          cases r with
          | error er =>
            simp only [hbl] at he
            exact hbes e (by simpa using he)
          | ok p =>
            obtain ⟨o2, stmts⟩ := p
            have hp := buildLoop_preserves c.params xs o o2 bes stmts hbl "dryrun" (by decide)
            have hd2 : (dget o2 "dryrun" (.vb false)).truthy = true := by
              simpa [dget, hp] using hdry
            simp only [hbl, hd2, if_true] at he
            exact hbes e (by simpa using he)
      | vs x => simp at he
      | vi n => simp at he
      | vb b => simp at he
      | vnone => simp at he
      | vtriple a b c2 => simp at he

/-- C9: with dry run enabled in the merged options, (i) for every call,
every effect of `run()` is a statement construction - no job script is
built, no job template created, no cluster job submitted, and no local
subprocess spawned, on any path; (ii) statement construction still takes
place, so a templating error is still raised (with an empty effect
trace), and (iii)-(vi) on the cluster single, batch, array, and local
paths the trace consists exactly of the built statements. -/
theorem C9_dryrun_builds_but_never_starts :
    (∀ (c : RunConfig) (o : Dict), setupOptions c = .ok o →
      (dget o "dryrun" (.vb false)).truthy = true →
      ∀ e ∈ (runModel c).1, e.isBuilt = true) ∧
    (runModel dryrunBadTemplateConfig =
      ([], some (.keyError "Error when creating command: could not find 'missing' in dictionaries"))) ∧
    (runModel dryrunClusterConfig = ([.builtStatement "echo ok"], none)) ∧
    (runModel dryrunBatchConfig =
      ([.builtStatement "echo a", .builtStatement "echo b"], none)) ∧
    (runModel dryrunArrayConfig = ([.builtStatement "echo ok"], none)) ∧
    (runModel dryrunLocalConfig = ([.builtStatement "echo ok"], none)) := by
  refine ⟨?_, by decide, by decide, by decide, by decide, by decide⟩
  intro c o hso hdry e he
  simp only [runModel, hso] at he
  cases hres : resolveJobMemory o c.params with
  | error er => simp only [hres] at he; simp at he
  | ok jm =>
    simp only [hres] at he
    cases hjn : jobNameOf o with
    | error er => simp only [hjn] at he; simp at he
    | ok jn =>
      simp only [hjn] at he
      split at he
      · cases hst : dfind o "statements" with
        | none =>
          rw [hst] at he
          exact clusterSingle_dryrun c o jm jn _ hdry e he
        | some v =>
          rw [hst] at he
          cases htr : v.truthy with
          | false =>
            simp only [htr, Bool.false_eq_true, if_false] at he
            exact clusterSingle_dryrun c o jm jn _ hdry e he
          | true =>
            simp only [htr, if_true] at he
            cases v with
            | vlist xs => exact clusterBatch_dryrun c o jm jn _ xs hdry e he
            | vs x => simp at he
            | vi n => simp at he
            | vb b => simp at he
            | vnone => simp at he
            | vtriple a b c2 => simp at he
      · exact localBranch_dryrun c o _ _ hdry e he

/-- C9, witness: the general dry-run statement applied to the cluster
single-statement call. -/
theorem C9_dryrun_builds_but_never_starts_witness :
    (runModel dryrunClusterConfig).1.all Effect.isBuilt = true :=
  List.all_eq_true.mpr (fun e he =>
    C9_dryrun_builds_but_never_starts.1 dryrunClusterConfig
      [("cluster_options", .vs ""), ("cluster_queue", .vs "all.q"),
       ("cluster_priority", .vi 0), ("cluster_memory_resource", .vs "mem_free"),
       ("cluster_memory_default", .vs "2G"), ("cluster_parallel_environment", .vs "smp"),
       ("statement", .vs "echo ok"), ("dryrun", .vb true), ("without_cluster", .vnone)]
      (by decide) (by decide) e he)

/-! ## Lemmas about literal replacement, for `joinStatements` -/

theorem replFuel_nil (pat rep : List Char) (f : Nat) : replFuel pat rep f [] = [] := by
  cases f <;> rfl

theorem replFuel_pos (pat rep : List Char) (f : Nat) (c : Char) (rest : List Char)
    (h : liPrefix pat (c :: rest) = true) :
    replFuel pat rep (f + 1) (c :: rest) =
      rep ++ replFuel pat rep f ((c :: rest).drop pat.length) := by
  simp [replFuel, h]

theorem replFuel_neg (pat rep : List Char) (f : Nat) (c : Char) (rest : List Char)
    (h : liPrefix pat (c :: rest) = false) :
    replFuel pat rep (f + 1) (c :: rest) = c :: replFuel pat rep f rest := by
  simp [replFuel, h]

/-- With enough fuel (at least the input length), the replacement result
does not depend on the exact fuel: every step consumes at least one input
character when the pattern is non-empty. -/
theorem replFuel_fuel_free (pat rep : List Char) (hpat : pat ≠ []) :
    ∀ (n : Nat) (l : List Char), l.length ≤ n → ∀ (f g : Nat),
      l.length ≤ f → l.length ≤ g → replFuel pat rep f l = replFuel pat rep g l := by
  intro n
  induction n with
  | zero =>
    intro l hl f g _ _
    have : l = [] := List.eq_nil_of_length_eq_zero (Nat.le_zero.mp hl)
    subst this
    rw [replFuel_nil, replFuel_nil]
  | succ n ih =>
    intro l hl f g hf hg
    cases l with
    | nil => rw [replFuel_nil, replFuel_nil]
    | cons c rest =>
      have h1 : 1 ≤ f := le_trans (by simp) hf
      have h2 : 1 ≤ g := le_trans (by simp) hg
      obtain ⟨f', rfl⟩ : ∃ f', f = f' + 1 := ⟨f - 1, by omega⟩
      obtain ⟨g', rfl⟩ : ∃ g', g = g' + 1 := ⟨g - 1, by omega⟩
      have hlen : (c :: rest).length = rest.length + 1 := rfl
      have hplen : 1 ≤ pat.length := by
        cases pat with
        | nil => exact absurd rfl hpat
        | cons a as => simp
      cases hp : liPrefix pat (c :: rest) with
      | true =>
        rw [replFuel_pos pat rep f' c rest hp, replFuel_pos pat rep g' c rest hp]
        congr 1
        have hdlen : ((c :: rest).drop pat.length).length = (c :: rest).length - pat.length :=
          List.length_drop _ _
        apply ih
        · rw [hdlen]; rw [hlen] at hl ⊢; omega
        · rw [hdlen]; rw [hlen] at hf; omega
        · rw [hdlen]; rw [hlen] at hg; omega
      | false =>
        rw [replFuel_neg pat rep f' c rest hp, replFuel_neg pat rep g' c rest hp]
        congr 1
        apply ih
        · rw [hlen] at hl; omega
        · rw [hlen] at hf; omega
        · rw [hlen] at hg; omega

/-- Skipping a clean segment: characters different from `'@'` are copied
unchanged when the pattern starts with `'@'`. -/
theorem replFuel_skip (p rep : List Char) :
    ∀ (seg : List Char), (∀ c ∈ seg, ¬ c = '@') →
    ∀ (f : Nat) (rest : List Char),
      replFuel ('@' :: p) rep (seg.length + f) (seg ++ rest) =
        seg ++ replFuel ('@' :: p) rep f rest := by
  intro seg
  induction seg with
  | nil => intro _ f rest; simp
  | cons c cs ih =>
    intro h f rest
    have hc : ¬ ('@' = c) := fun hh => h c (List.mem_cons_self c cs) hh.symm
    have hlp : liPrefix ('@' :: p) (c :: (cs ++ rest)) = false := by
      simp [liPrefix, hc]
    have hlen : (c :: cs).length + f = (cs.length + f) + 1 := by
      simp [List.length_cons]; omega
    rw [List.cons_append, hlen, replFuel_neg _ _ _ _ _ hlp,
      ih (fun c2 hc2 => h c2 (List.mem_cons_of_mem _ hc2)) f rest]
    rfl

theorem liPrefix_append_self (p t : List Char) : liPrefix p (p ++ t) = true := by
  induction p with
  | nil => rfl
  | cons c cs ih => simp [liPrefix, ih]

/-- Replacing the pattern itself (with at least one unit of fuel) yields
exactly the replacement. -/
theorem replFuel_self (c : Char) (p rep : List Char) (f : Nat) :
    replFuel (c :: p) rep (f + 1) (c :: p) = rep := by
  rw [replFuel_pos _ _ _ _ _ (liPrefix_refl _)]
  have hdrop : (c :: p).drop (c :: p).length = [] := by simp
  rw [hdrop, replFuel_nil, List.append_nil]

/-- When the pattern occurs nowhere in the input, replacement leaves the
input unchanged (for any fuel). -/
theorem replFuel_no_occur (pat rep : List Char) :
    ∀ (l : List Char) (f : Nat), subStrAux pat l = false → replFuel pat rep f l = l := by
  intro l
  induction l with
  | nil => intro f _; exact replFuel_nil pat rep f
  | cons c rest ih =>
    intro f h
    simp only [subStrAux, Bool.or_eq_false_iff] at h
    cases f with
    | zero => rfl
    | succ f' => rw [replFuel_neg _ _ _ _ _ h.1, ih f' h.2]

theorem strEq_of_data (a b : String) (h : a.data = b.data) : a = b := by
  cases a; cases b; cases h; rfl

theorem data_append (a b : String) : (a ++ b).data = a.data ++ b.data := by
  cases a; cases b; rfl

theorem dropWhile_eq_self_of_head (p : Char → Bool) (l : List Char)
    (h : ∀ c, l.head? = some c → p c = false) : l.dropWhile p = l := by
  cases l with
  | nil => rfl
  | cons c rest => simp [List.dropWhile_cons, h c rfl]

/-- `strip()` is the identity on a string whose first and last characters
are not whitespace. -/
theorem pyStrip_eq_self (l : List Char)
    (h1 : ∀ c, l.head? = some c → isSpacePy c = false)
    (h2 : ∀ c, l.getLast? = some c → isSpacePy c = false) :
    pyStrip (String.mk l) = String.mk l := by
  unfold pyStrip
  rw [dropWhile_eq_self_of_head _ _ h1]
  rw [dropWhile_eq_self_of_head _ _ (fun c hc => h2 c (by rwa [List.head?_reverse] at hc))]
  rw [List.reverse_reverse]

theorem strEndsOne_of_getLast (s : String) (c ch : Char) (h : s.data.getLast? = some c) :
    strEndsOne s ch = decide (c = ch) := by
  unfold strEndsOne
  rw [← List.head?_reverse] at h
  cases hrev : s.data.reverse with
  | nil => rw [hrev] at h; cases h
  | cons c' t =>
    rw [hrev] at h
    simp only [List.head?_cons, Option.some.injEq] at h
    subst h
    rfl

/-- `re.sub("@OUT@", q, "step1 @OUT@")` for an arbitrary replacement. -/
theorem replace_out_step1 (q : String) :
    replaceAll "@OUT@" q "step1 @OUT@" = "step1 " ++ q := by
  apply strEq_of_data
  rw [data_append]
  show replFuel "@OUT@".data q.data "step1 @OUT@".data.length "step1 @OUT@".data =
    "step1 ".data ++ q.data
  have hpat : "@OUT@".data = '@' :: "OUT@".data := by decide
  have hsplit : "step1 @OUT@".data = "step1 ".data ++ ('@' :: "OUT@".data) := by decide
  rw [hpat, hsplit]
  rw [replFuel_fuel_free ('@' :: "OUT@".data) q.data (by simp) _ _ (le_refl _) _
    (List.length "step1 ".data + ("OUT@".data.length + 1)) (le_refl _) (by decide)]
  rw [replFuel_skip "OUT@".data q.data "step1 ".data (by decide) ("OUT@".data.length + 1)
    ('@' :: "OUT@".data)]
  rw [replFuel_self '@' "OUT@".data q.data "OUT@".data.length]

/-- Matching the pattern at the head of the input: the replacement is
emitted and the pattern consumed. -/
theorem replFuel_pat_head (c : Char) (p rep t : List Char) (f : Nat) :
    replFuel (c :: p) rep (f + 1) ((c :: p) ++ t) = rep ++ replFuel (c :: p) rep f t := by
  have hl : liPrefix (c :: p) (c :: (p ++ t)) = true := by
    rw [← List.cons_append]
    exact liPrefix_append_self _ _
  rw [List.cons_append, replFuel_pos _ _ _ _ _ hl]
  have hd : List.drop (c :: p).length (c :: (p ++ t)) = t := by
    rw [← List.cons_append]
    exact List.drop_left _ _
  rw [hd]

/-- `re.sub("@IN@", r, "step2 @IN@ @OUT@")` for an arbitrary replacement. -/
theorem replace_in_step2 (r : String) :
    replaceAll "@IN@" r "step2 @IN@ @OUT@" = "step2 " ++ r ++ " @OUT@" := by
  apply strEq_of_data
  rw [data_append, data_append]
  show replFuel "@IN@".data r.data "step2 @IN@ @OUT@".data.length "step2 @IN@ @OUT@".data =
    "step2 ".data ++ r.data ++ " @OUT@".data
  have hpat : "@IN@".data = '@' :: "IN@".data := by decide
  have hsplit : "step2 @IN@ @OUT@".data =
    "step2 ".data ++ (('@' :: "IN@".data) ++ " @OUT@".data) := by decide
  rw [hpat, hsplit]
  rw [replFuel_fuel_free ('@' :: "IN@".data) r.data (by simp) _ _ (le_refl _) _
    (List.length "step2 ".data + ((" @OUT@".data.length + 3) + 1)) (le_refl _) (by decide)]
  rw [replFuel_skip "IN@".data r.data "step2 ".data (by decide) ((" @OUT@".data.length + 3) + 1)
    (('@' :: "IN@".data) ++ " @OUT@".data)]
  rw [replFuel_pat_head '@' "IN@".data r.data " @OUT@".data (" @OUT@".data.length + 3)]
  rw [replFuel_no_occur ('@' :: "IN@".data) r.data " @OUT@".data _ (by decide)]
  simp [List.append_assoc]

/-- `re.sub("@OUT@", q, "step2 " ++ r ++ " @OUT@")` when the first
replacement `r` contains no `@`. -/
theorem replace_out_step2 (r q : String) (hr : ∀ c ∈ r.data, ¬ c = '@') :
    replaceAll "@OUT@" q ("step2 " ++ r ++ " @OUT@") = "step2 " ++ r ++ " " ++ q := by
  apply strEq_of_data
  rw [data_append, data_append, data_append]
  show replFuel "@OUT@".data q.data ("step2 " ++ r ++ " @OUT@").data.length
    ("step2 " ++ r ++ " @OUT@").data = "step2 ".data ++ r.data ++ " ".data ++ q.data
  have hpat : "@OUT@".data = '@' :: "OUT@".data := by decide
  have hsplit : ("step2 " ++ r ++ " @OUT@").data =
      "step2 ".data ++ (r.data ++ ([' '] ++ ('@' :: "OUT@".data))) := by
    rw [data_append, data_append]
    have h1 : " @OUT@".data = [' '] ++ ('@' :: "OUT@".data) := by decide
    rw [h1]
    simp [List.append_assoc]
  rw [hpat, hsplit]
  have h6 : List.length "step2 ".data = 6 := by decide
  have h4 : List.length "OUT@".data = 4 := by decide
  rw [replFuel_fuel_free ('@' :: "OUT@".data) q.data (by simp) _ _ (le_refl _) _
    (List.length "step2 ".data + (List.length r.data + (List.length [' '] +
      ("OUT@".data.length + 1)))) (le_refl _)
    (by simp [List.length_append, h6, h4]; omega)]
  rw [replFuel_skip "OUT@".data q.data "step2 ".data (by decide)
    (List.length r.data + (List.length [' '] + ("OUT@".data.length + 1)))
    (r.data ++ ([' '] ++ ('@' :: "OUT@".data)))]
  rw [replFuel_skip "OUT@".data q.data r.data hr
    (List.length [' '] + ("OUT@".data.length + 1)) ([' '] ++ ('@' :: "OUT@".data))]
  rw [replFuel_skip "OUT@".data q.data [' '] (by decide)
    ("OUT@".data.length + 1) ('@' :: "OUT@".data)]
  rw [replFuel_self '@' "OUT@".data q.data "OUT@".data.length]
  have hsp : " ".data = [' '] := by decide
  rw [hsp]
  simp [List.append_assoc]

/-- `strip()` is the identity on a string whose first and last
characters are not whitespace. -/
theorem pyStripSelf (s : String)
    (h1 : ∀ c, s.data.head? = some c → isSpacePy c = false)
    (h2 : ∀ c, s.data.getLast? = some c → isSpacePy c = false) :
    pyStrip s = s := by
  cases s with
  | mk l =>
    unfold pyStrip
    rw [dropWhile_eq_self_of_head _ _ h1]
    rw [dropWhile_eq_self_of_head _ _ (fun c hc => h2 c (by rwa [List.head?_reverse] at hc))]
    rw [List.reverse_reverse]

/-- C8: for every call
`joinStatements(["step1 @OUT@", "step2 @IN@ @OUT@"], "in.txt")` (over
every generated temporary prefix, which is non-empty and contains no
`@`), the first statement's `@OUT@` and the second statement's `@IN@`
both resolve to the same generated temporary filename `prefix_1` (the
name with index 1), the second's `@OUT@` to `prefix_2`, consecutive
steps are separated by the `checkpoint` guard, and the result ends with
the cleanup command `rm -f prefix*` removing all intermediate
temporaries.  (The first statement holds no `@IN@`; an `@IN@` in the
first statement would be replaced by `"in.txt"`, per `replace_in_step2`
applied at index 0 of the loop.) -/
theorem C8_join_statements_chain (tmpPrefix : String) (hne : ¬ tmpPrefix = "")
    (hat : ∀ c ∈ tmpPrefix.data, ¬ c = '@') :
    joinStatements ["step1 @OUT@", "step2 @IN@ @OUT@"] "in.txt" tmpPrefix =
      .ok ("step1 " ++ tmpPrefix ++ "_1; checkpoint ; step2 " ++ tmpPrefix ++ "_1 " ++
        tmpPrefix ++ "_2; checkpoint ; rm -f " ++ tmpPrefix ++ "*") := by
  simp only [joinStatements, if_neg hne, joinGo, strJoin]
  norm_num
  have ht1 : toString (1 : Nat) = "1" := by decide
  have ht2 : toString (2 : Nat) = "2" := by decide
  rw [ht1, ht2]
  have hA0 : replaceAll "@IN@" "in.txt" "step1 @OUT@" = "step1 @OUT@" := by decide
  rw [hA0]
  have hp1 : tmpPrefix ++ "_" ++ "1" = tmpPrefix ++ "_1" := by
    apply strEq_of_data
    simp [data_append, List.append_assoc]
  have hp2 : tmpPrefix ++ "_" ++ "2" = tmpPrefix ++ "_2" := by
    apply strEq_of_data
    simp [data_append, List.append_assoc]
  rw [hp1, hp2]
  rw [replace_out_step1 (tmpPrefix ++ "_1")]
  rw [replace_in_step2 (tmpPrefix ++ "_1")]
  have hr1 : ∀ c ∈ (tmpPrefix ++ "_1").data, ¬ c = '@' := by
    intro c hc
    rw [data_append] at hc
    rcases List.mem_append.mp hc with h | h
    · exact hat c h
    · intro hh
      subst hh
      revert h
      decide
  rw [replace_out_step2 (tmpPrefix ++ "_1") (tmpPrefix ++ "_2") hr1]
  have hne1 : ("_1".data : List Char) ≠ [] := by decide
  have hne2 : ("_2".data : List Char) ≠ [] := by decide
  have hlast1 : ("step1 " ++ (tmpPrefix ++ "_1")).data.getLast? = some '1' := by
    rw [data_append, data_append]
    rw [List.getLast?_append_of_ne_nil _ (by simp [hne1])]
    rw [List.getLast?_append_of_ne_nil _ hne1]
    decide
  have hhead1 : ("step1 " ++ (tmpPrefix ++ "_1")).data.head? = some 's' := by
    rw [data_append]
    rw [show ("step1 ".data : List Char) = 's' :: "tep1 ".data from by decide]
    simp
  have hstrip1 : pyStrip ("step1 " ++ (tmpPrefix ++ "_1")) = "step1 " ++ (tmpPrefix ++ "_1") := by
    apply pyStripSelf
    · intro c hc
      rw [hhead1] at hc
      cases hc
      decide
    · intro c hc
      rw [hlast1] at hc
      cases hc
      decide
  rw [hstrip1]
  rw [strEndsOne_of_getLast _ '1' ';' hlast1]
  have hlast2 : ("step2 " ++ (tmpPrefix ++ "_1") ++ " " ++
      (tmpPrefix ++ "_2")).data.getLast? = some '2' := by
    rw [data_append]
    rw [List.getLast?_append_of_ne_nil _ (by rw [data_append]; simp [hne2])]
    rw [data_append]
    rw [List.getLast?_append_of_ne_nil _ hne2]
    decide
  have hhead2 : ("step2 " ++ (tmpPrefix ++ "_1") ++ " " ++
      (tmpPrefix ++ "_2")).data.head? = some 's' := by
    rw [data_append, data_append, data_append]
    rw [show ("step2 ".data : List Char) = 's' :: "tep2 ".data from by decide]
    simp
  have hstrip2 : pyStrip ("step2 " ++ (tmpPrefix ++ "_1") ++ " " ++ (tmpPrefix ++ "_2")) =
      "step2 " ++ (tmpPrefix ++ "_1") ++ " " ++ (tmpPrefix ++ "_2") := by
    apply pyStripSelf
    · intro c hc
      rw [hhead2] at hc
      cases hc
      decide
    · intro c hc
      rw [hlast2] at hc
      cases hc
      decide
  rw [hstrip2]
  rw [strEndsOne_of_getLast _ '2' ';' hlast2]
  norm_num
  rw [if_neg (show ¬ ('1' = ';') from by decide), if_neg (show ¬ ('2' = ';') from by decide)]
  apply strEq_of_data
  simp only [data_append]
  simp [List.append_assoc]

/-- C8, witness: the chain at the concrete temporary prefix `"ctmp"`. -/
theorem C8_join_statements_chain_witness :
    joinStatements ["step1 @OUT@", "step2 @IN@ @OUT@"] "in.txt" "ctmp" =
      .ok "step1 ctmp_1; checkpoint ; step2 ctmp_1 ctmp_2; checkpoint ; rm -f ctmp*" := by
  rw [C8_join_statements_chain "ctmp" (by decide) (by decide)]
  decide
